import Mathlib

/-!
Verification of the token-lifecycle, rate-limiting and pub-sub slice of the
`gef3dx/api` backend, following its natural-language specification.

The Python source is shallowly embedded: database tables become lists of
structures, each repository / service method becomes a Lean function whose
control flow mirrors the Python body line by line, and exceptions become
explicit error values.  Time instants are modeled as integers (epoch seconds);
`datetime` values are modeled by a wall-clock reading together with an
optional UTC offset (`tzinfo`), which is exactly the information the embedded
comparisons inspect.

External collaborators (PostgreSQL, Redis, PyJWT, hashlib) are modeled at the
call boundary: a Redis sorted set becomes the list of member scores, the JWT
decode step becomes a function of the payload, signature validity and the
clock, and the SHA-256 digest becomes an arbitrary fixed function parameter.
-/

/-- Model of a Python `datetime` value: the wall-clock reading in epoch-style
seconds together with the `tzinfo` utc offset (in seconds); `none` models a
naive datetime.  For an aware value the denoted instant is `wall - offset`;
for a naive value the denoted instant depends on which clock produced it. -/
structure PyDatetime where
  wall : Int
  tz : Option Int
deriving DecidableEq

/-- Model of `datetime.fromtimestamp(exp, tz=timezone.utc)` (auth/service.py
lines 89 and 160): an aware UTC datetime whose wall reading equals the epoch
instant. -/
def utcFromTimestamp (exp : Int) : PyDatetime :=
  { wall := exp, tz := some 0 }

/-- Model of `datetime.fromtimestamp(exp)` with no tz argument (auth/router.py
line 75, the `/auth/register` handler): a naive datetime carrying the LOCAL
wall-clock reading, i.e. the instant plus the host utc offset. -/
def localNaiveFromTimestamp (exp localOffset : Int) : PyDatetime :=
  { wall := exp + localOffset, tz := none }

/-- Model of the expiry comparison block that appears verbatim in
`AuthService.refresh_access_token` (service.py lines 127-137) and
`AuthService.confirm_password_reset` (service.py lines 244-251): when the
stored datetime is naive its wall reading is compared with
`datetime.now(timezone.utc).replace(tzinfo=None)` (the UTC wall clock with
tzinfo stripped); when it is aware the comparison is instant against instant.
`nowUtc` is the current instant, which is also the UTC wall reading. -/
def pyExpiredCheck (expiresAt : PyDatetime) (nowUtc : Int) : Bool :=
  match expiresAt.tz with
  | none => decide (expiresAt.wall < nowUtc)
  | some off => decide (expiresAt.wall - off < nowUtc)

/-- Row of the `refresh_tokens` table (db/models.py lines 17-31): user id,
unique jti, expiry and the revoked flag.  Ids are modeled as strings. -/
structure RefreshTokenRow where
  userId : String
  jti : String
  expiresAt : PyDatetime
  revoked : Bool
deriving DecidableEq

/-- Row of the `users` table, restricted to the fields the auth flows read:
id, the active flag and the password hash. -/
structure UserRow where
  id : String
  isActive : Bool
  passwordHash : String
deriving DecidableEq

/-- Database state visible to the auth service: the users and the persisted
refresh tokens. -/
structure AuthState where
  users : List UserRow
  refreshTokens : List RefreshTokenRow
deriving DecidableEq

/-- Model of `AuthRepository.get_refresh_token_by_jti` (repository.py lines
38-51): `SELECT ... WHERE jti == j`, one row or none (`jti` is a unique
column, so the first match is the only match). -/
def get_refresh_token_by_jti (rows : List RefreshTokenRow) (j : String) :
    Option RefreshTokenRow :=
  rows.find? (fun r => r.jti == j)

/-- Model of `AuthRepository.revoke_refresh_token` (repository.py lines
53-66): sets `revoked = True` on the row carrying the given jti and commits. -/
def revoke_refresh_token (rows : List RefreshTokenRow) (j : String) :
    List RefreshTokenRow :=
  rows.map (fun r => if r.jti == j then { r with revoked := true } else r)

/-- Model of `AuthRepository.create_refresh_token` (repository.py lines
18-36): inserts a fresh non-revoked row. -/
def create_refresh_token (rows : List RefreshTokenRow) (uid j : String)
    (expiresAt : PyDatetime) : List RefreshTokenRow :=
  rows ++ [{ userId := uid, jti := j, expiresAt := expiresAt, revoked := false }]

/-- Model of `AuthRepository.revoke_all_refresh_tokens` (repository.py lines
68-83): selects every row of the user and sets `revoked = True` on each, in
one transaction. -/
def revoke_all_refresh_tokens (uid : String) (rows : List RefreshTokenRow) :
    List RefreshTokenRow :=
  rows.map (fun r => if r.userId == uid then { r with revoked := true } else r)

/-- Claims of a decoded refresh token as read by the service: `sub`, `jti`
(absent keys model `payload.get(...)` returning `None`) and the `exp` epoch
instant. -/
structure JwtPayload where
  sub : Option String
  jti : Option String
  exp : Int
deriving DecidableEq

/-- Model of `decode_token` (core/jwt.py lines 68-81), i.e. `jwt.decode` of
PyJWT: succeeds iff the signature verifies and the embedded `exp` claim has
not passed (PyJWT raises `ExpiredSignatureError` when `exp <= now`).  The
payload and signature validity stand for the opaque signed string. -/
def decode_token (payload : JwtPayload) (sigValid : Bool) (nowUtc : Int) :
    Option JwtPayload :=
  if sigValid && decide (nowUtc < payload.exp) then some payload else none

/-- Error taxonomy of the auth flows, one constructor per distinct raise site
of `AuthService.refresh_access_token`: `invalidToken` for the decode / missing
jti / unknown jti / missing sub failures, `revokedToken` for the revoked-flag
failure, `expiredToken` for the stored-expiry failure and `userInvalid` for a
missing or inactive user. -/
inductive AuthError
  | invalidToken
  | revokedToken
  | expiredToken
  | userInvalid
deriving DecidableEq

/-- Model of `AuthService.refresh_access_token` (service.py lines 96-165).
Inputs beyond the state: the presented token (payload plus signature
validity), the current instant, and the fresh jti / expiry instant that
`create_refresh_token` in core/jwt.py would generate for the replacement
refresh token.  On success it returns the updated state and the new jti
(standing for the returned token pair). -/
def refresh_access_token (st : AuthState) (token : JwtPayload)
    (sigValid : Bool) (nowUtc : Int) (newJti : String) (newExp : Int) :
    Except AuthError (AuthState × String) :=
  match decode_token token sigValid nowUtc with
  | none => .error .invalidToken
  | some payload =>
    match payload.jti with
    | none => .error .invalidToken
    | some j =>
      match get_refresh_token_by_jti st.refreshTokens j with
      | none => .error .invalidToken
      | some row =>
        if row.revoked then .error .revokedToken
        else if pyExpiredCheck row.expiresAt nowUtc then .error .expiredToken
        else
          match payload.sub with
          | none => .error .invalidToken
          | some uid =>
            match st.users.find? (fun u => u.id == uid) with
            | none => .error .userInvalid
            | some u =>
              if u.isActive then
                let rows1 := revoke_refresh_token st.refreshTokens j
                let rows2 := create_refresh_token rows1 uid newJti
                  (utcFromTimestamp newExp)
                .ok ({ st with refreshTokens := rows2 }, newJti)
              else .error .userInvalid

/-- Model of the `/auth/logout-all` route handler (auth/router.py lines
170-187): the body never calls `AuthService.logout_all`; it only returns the
success message, so the database state passes through untouched. -/
def logout_all_endpoint (st : AuthState) : AuthState × String :=
  (st, "Successfully logged out from all devices")

/-- Row of the `password_reset_tokens` table (db/models.py lines 34-51).  Its
persisted columns are exactly these: a row id, the user id, the token HASH,
the expiry and the used flag; there is no raw-token column (`token` on the
Python class is a transient non-mapped attribute). -/
structure ResetTokenRow where
  rowId : Nat
  userId : String
  tokenHash : String
  expiresAt : PyDatetime
  used : Bool
deriving DecidableEq

/-- Database state visible to the password-reset flow. -/
structure ResetState where
  users : List UserRow
  resetTokens : List ResetTokenRow
deriving DecidableEq

/-- Model of `AuthRepository.get_password_reset_token_by_hash` (repository.py
lines 115-132): `SELECT ... WHERE token_hash == h`, first (and in practice
only) match. -/
def get_password_reset_token_by_hash (rows : List ResetTokenRow) (h : String) :
    Option ResetTokenRow :=
  rows.find? (fun r => r.tokenHash == h)

/-- Model of `AuthRepository.use_password_reset_token` (repository.py lines
134-149): sets `used = True` on the given row (identified here by its row id)
and commits. -/
def use_password_reset_token (rows : List ResetTokenRow) (i : Nat) :
    List ResetTokenRow :=
  rows.map (fun r => if r.rowId == i then { r with used := true } else r)

/-- Model of `AuthRepository.create_password_reset_token` (repository.py lines
85-113).  `generate_token` (utils/crypto.py) draws the high-entropy raw token,
supplied here as the `raw` input; `hash_token` (utils/crypto.py lines 25-35)
is the SHA-256 hex digest of the raw token, an external `hashlib` primitive
modeled as the fixed function parameter `hashFn`.  The persisted row carries
only the hash and a `now + 1 hour` aware expiry; the raw token is returned
alongside the row (the Python code staples it onto the ORM object as a
transient attribute after the commit). -/
def create_password_reset_token (rows : List ResetTokenRow)
    (hashFn : String → String) (uid raw : String) (nowUtc : Int)
    (newId : Nat) : List ResetTokenRow × ResetTokenRow × String :=
  let row : ResetTokenRow :=
    { rowId := newId, userId := uid, tokenHash := hashFn raw,
      expiresAt := { wall := nowUtc + 3600, tz := some 0 }, used := false }
  (rows ++ [row], row, raw)

/-- Error taxonomy of `AuthService.confirm_password_reset`, one constructor
per distinct raise site: `invalidToken` when no row matches the hash,
`alreadyUsed` when the used flag is set, `expired` when past expiry and
`userNotFound` when the owning user is gone. -/
inductive ResetError
  | invalidToken
  | alreadyUsed
  | expired
  | userNotFound
deriving DecidableEq

/-- Model of `AuthService.confirm_password_reset` (service.py lines 220-263):
hash the input, look the row up by hash, fail `invalidToken` if absent, fail
`alreadyUsed` if the used flag is set (checked before expiry), fail `expired`
if past expiry, look the user up, update the credential and mark the row
used. -/
def confirm_password_reset (st : ResetState) (hashFn : String → String)
    (raw : String) (nowUtc : Int) (newPwHash : String) :
    Except ResetError ResetState :=
  let h := hashFn raw
  match get_password_reset_token_by_hash st.resetTokens h with
  | none => .error .invalidToken
  | some row =>
    if row.used then .error .alreadyUsed
    else if pyExpiredCheck row.expiresAt nowUtc then .error .expired
    else
      match st.users.find? (fun u => u.id == row.userId) with
      | none => .error .userNotFound
      | some u =>
        let users1 := st.users.map
          (fun v => if v.id == u.id then { v with passwordHash := newPwHash } else v)
        let tokens1 := use_password_reset_token st.resetTokens row.rowId
        .ok { users := users1, resetTokens := tokens1 }

/-- State of one rate-limit key in the external store: the member scores of
the Redis sorted set (each member is `str(now)`, so equal timestamps collapse
into one member) and the key's expiry deadline as set by `EXPIRE`. -/
structure RLState where
  entries : List Int
  deadline : Option Int
deriving DecidableEq

/-- Model of `ZREMRANGEBYSCORE key lo hi`: drops every member whose score
lies in the closed interval. -/
def zremrangebyscore (entries : List Int) (lo hi : Int) : List Int :=
  entries.filter (fun s => !(decide (lo ≤ s) && decide (s ≤ hi)))

/-- Model of `ZADD key (str(now) -> now)`: a member with the same name keeps
its single slot, otherwise the score is appended. -/
def zadd (entries : List Int) (s : Int) : List Int :=
  if entries.contains s then entries else entries ++ [s]

/-- Entries the store still holds when a command arrives at `nowUtc`: the key
vanishes once its `EXPIRE` deadline has passed. -/
def liveEntries (st : RLState) (nowUtc : Int) : List Int :=
  match st.deadline with
  | some d => if d < nowUtc then [] else st.entries
  | none => st.entries

/-- Outcome of one rate-limit check: the returned boolean and the key state
the pipeline leaves behind. -/
structure RLOutcome where
  allowed : Bool
  state : RLState
deriving DecidableEq

/-- Model of `RateLimiter.is_allowed` (core/rate_limiter.py lines 18-50), the
body of the `try` block: one Redis MULTI/EXEC pipeline (the redis-py pipeline
default is transactional, so the four commands execute as one atomic batch)
that purges scores in `[0, now - window]`, counts the remaining members,
records `now` and sets the key expiry to `window`; the call is allowed iff
the count taken before the insert is below the limit. -/
def is_allowed (st : RLState) (nowUtc limit window : Int) : RLOutcome :=
  let entries := liveEntries st nowUtc
  let purged := zremrangebyscore entries 0 (nowUtc - window)
  let count : Int := purged.length
  { allowed := decide (count < limit),
    state := { entries := zadd purged nowUtc, deadline := some (nowUtc + window) } }

/-- Model of `RateLimiter.is_allowed` including its `except` clause (lines
51-54): when the backing store is down the pipeline raises, the error is
logged and the method returns `True` (fail open) leaving the store state as
it was.  The third component is the log output of the call. -/
def is_allowed_total (storeUp : Bool) (st : RLState)
    (nowUtc limit window : Int) : Bool × RLState × List String :=
  if storeUp then
    let o := is_allowed st nowUtc limit window
    (o.allowed, o.state, [])
  else
    (true, st, ["Error checking rate limit"])

/-- Model of `RateLimiter.get_retry_after` (core/rate_limiter.py lines
56-78): seconds until the earliest score still on the key leaves the
window. -/
def get_retry_after (st : RLState) (nowUtc window : Int) : Int :=
  match (liveEntries st nowUtc).min? with
  | some earliest => max 0 (earliest + window - nowUtc)
  | none => 0

/-- Modelled from the spec: the `RateLimited (with a retry_after hint)` error
of the taxonomy in section 7.  The decorator raises
`RateLimitExceededException`, whose class definition is missing from the
repository sources (`app/utils/exceptions.py` does not define the name it
exports), so the error value is taken from the spec's words. -/
inductive RLError
  | rateLimited (retryAfter : Int)
deriving DecidableEq

/-- Model of the `rate_limit` decorator wrapper (core/rate_limiter.py lines
95-113) around one call: run the check, and on rejection raise `RateLimited`
with the retry hint computed from the post-check key state. -/
def rate_limit_call (st : RLState) (nowUtc limit window : Int) :
    Except RLError RLState :=
  let o := is_allowed st nowUtc limit window
  if o.allowed then .ok o.state
  else .error (.rateLimited (get_retry_after o.state nowUtc window))

/-- Sequential execution of `is_allowed` checks at the given instants against
one key, each pipeline an atomic batch: returns the list of verdicts and the
final key state.  This is the serialization model for concurrent checks on
the same key. -/
def run_is_allowed (st : RLState) (limit window : Int) :
    List Int → List Bool × RLState
  | [] => ([], st)
  | t :: ts =>
    let o := is_allowed st t limit window
    let rest := run_is_allowed o.state limit window ts
    (o.allowed :: rest.1, rest.2)

/-- Sequential execution of decorated calls (`rate_limit_call`) at the given
instants, threading the key state; collects each call's outcome. -/
def run_rate_limit : RLState → Int → Int → List Int →
    List (Except RLError Unit) × RLState
  | st, _, _, [] => ([], st)
  | st, limit, window, t :: ts =>
    match rate_limit_call st t limit window with
    | .ok st1 =>
      let rest := run_rate_limit st1 limit window ts
      (.ok () :: rest.1, rest.2)
    | .error e =>
      let rest := run_rate_limit (is_allowed st t limit window).state limit window ts
      (.error e :: rest.1, rest.2)

/-- Message delivered by `pubsub.listen()`: the redis-py message dict fields
the loop reads (`type`, `channel`, `data`). -/
structure PubSubMessage where
  msgType : String
  channel : String
  data : String
deriving DecidableEq

/-- Result of awaiting one registered handler: normal return, or the
exception it raised. -/
inductive HandlerResult
  | ok
  | failed (err : String)
deriving DecidableEq

/-- Observable event of one loop iteration: the handler ran to completion, or
its exception was caught and logged. -/
inductive ListenEvent
  | handled (channel data : String)
  | handlerError (channel err : String)
deriving DecidableEq

/-- Lookup in `self._listeners`, the channel-to-callback dict. -/
def lookupHandler (listeners : List (String × (String → HandlerResult)))
    (c : String) : Option (String → HandlerResult) :=
  (listeners.find? (fun p => p.1 == c)).map Prod.snd

/-- Model of one iteration of the loop body in
`NotificationPubSub.listen_for_notifications` (pubsub.py lines 118-130):
non-`message` frames and channels without a registered callback are skipped;
the callback runs inside its own try/except, so an exception becomes a logged
`handlerError` event instead of escaping the loop. -/
def listen_step (listeners : List (String × (String → HandlerResult)))
    (m : PubSubMessage) : List ListenEvent :=
  if m.msgType == "message" then
    match lookupHandler listeners m.channel with
    | some h =>
      match h m.data with
      | .ok => [.handled m.channel m.data]
      | .failed e => [.handlerError m.channel e]
    | none => []
  else []

/-- Model of `NotificationPubSub.listen_for_notifications` (pubsub.py lines
115-132) over a finite incoming message sequence: every message is processed
by `listen_step`; because each handler exception is caught per message, the
traversal never short-circuits. -/
def listen_for_notifications (listeners : List (String × (String → HandlerResult))) :
    List PubSubMessage → List ListenEvent
  | [] => []
  | m :: rest => listen_step listeners m ++ listen_for_notifications listeners rest

/-- Model of `PUBLISH channel message`: returns the number of subscribers the
broker delivered to (zero when nobody subscribed; never an error). -/
def redis_publish (subscribedChannels : List String) (channel : String) : Nat :=
  (subscribedChannels.filter (fun c => c == channel)).length

/-- Outcome of `NotificationPubSub.publish_notification`: how many
subscribers received the message, and whether the except clause logged a
broker failure.  The method itself always returns normally. -/
structure PublishResult where
  receivers : Nat
  errorLogged : Bool
deriving DecidableEq

/-- Model of `NotificationPubSub.publish_notification` (pubsub.py lines
24-56): builds the per-recipient channel name and publishes; any broker
exception is caught and logged, so the call completes either way. -/
def publish_notification (subscribedChannels : List String) (brokerUp : Bool)
    (userId : String) : PublishResult :=
  if brokerUp then
    { receivers :=
        redis_publish subscribedChannels ("notifications:user:" ++ userId),
      errorLogged := false }
  else
    { receivers := 0, errorLogged := true }

/-- Operations that can touch the `refresh_tokens` table after a rotation:
the repository writes reachable from the auth service (`create_refresh_token`
on login / registration / refresh, `revoke_refresh_token` on logout,
`revoke_all_refresh_tokens` on logout-all, and a whole
`refresh_access_token` call, which leaves the state unchanged when it
fails). -/
inductive AuthOp
  | create (uid j2 : String) (expiresAt : PyDatetime)
  | revokeOne (j2 : String)
  | revokeAllFor (uid : String)
  | refresh (token : JwtPayload) (sigValid : Bool) (nowUtc : Int)
      (newJti : String) (newExp : Int)

/-- Effect of one `AuthOp` on the database state. -/
def apply_auth_op (st : AuthState) : AuthOp → AuthState
  | .create uid j2 e =>
    { st with refreshTokens := create_refresh_token st.refreshTokens uid j2 e }
  | .revokeOne j2 =>
    { st with refreshTokens := revoke_refresh_token st.refreshTokens j2 }
  | .revokeAllFor uid =>
    { st with refreshTokens := revoke_all_refresh_tokens uid st.refreshTokens }
  | .refresh t sv n nj ne =>
    match refresh_access_token st t sv n nj ne with
    | .ok p => p.1
    | .error _ => st

/-- Demonstration state for the rotation claim: one active user owning one
live refresh token. -/
def c1State : AuthState :=
  { users := [{ id := "u1", isActive := true, passwordHash := "ph" }],
    refreshTokens :=
      [{ userId := "u1", jti := "j1", expiresAt := utcFromTimestamp 50,
         revoked := false }] }

/-- Demonstration state for the timezone claim: the user's refresh-token row
was written by the `/auth/register` handler on a host one hour west of UTC,
so `expires_at` is the naive local reading of the instant 10000. -/
def c7State : AuthState :=
  { users := [{ id := "u1", isActive := true, passwordHash := "ph" }],
    refreshTokens :=
      [{ userId := "u1", jti := "j1",
         expiresAt := localNaiveFromTimestamp 10000 (-3600),
         revoked := false }] }

/-- Demonstration state for the password-reset claim: one user and one live
reset-token row whose hash column matches the demonstration digest
function. -/
def c2State : ResetState :=
  { users := [{ id := "u1", isActive := true, passwordHash := "old" }],
    resetTokens :=
      [{ rowId := 1, userId := "u1", tokenHash := "tkh",
         expiresAt := utcFromTimestamp 3600, used := false }] }

/-- Demonstration digest function standing in for the SHA-256 hex digest in
witnesses: appends a marker to its input. -/
def demoHash (s : String) : String := s ++ "h"

/-- State a successful `refresh_access_token` call leaves behind: the old jti
revoked, a fresh row appended for the caller. -/
def rotated_state (st : AuthState) (uid j newJti : String) (newExp : Int) :
    AuthState :=
  { st with
      refreshTokens :=
        create_refresh_token (revoke_refresh_token st.refreshTokens j) uid
          newJti (utcFromTimestamp newExp) }

/-- State a successful `confirm_password_reset` call leaves behind: the
user's credential replaced, the reset row marked used. -/
def reset_done_state (st : ResetState) (uid : String) (rowId : Nat)
    (newPwHash : String) : ResetState :=
  { users :=
      st.users.map
        (fun v => if v.id == uid then { v with passwordHash := newPwHash } else v),
    resetTokens := use_password_reset_token st.resetTokens rowId }


theorem find?_refresh_map_pres (rows : List RefreshTokenRow) (j : String)
    (f : RefreshTokenRow → RefreshTokenRow) (hf : ∀ r, (f r).jti = r.jti) :
    get_refresh_token_by_jti (rows.map f) j
      = (get_refresh_token_by_jti rows j).map f := by
  unfold get_refresh_token_by_jti
  rw [List.find?_map]
  have hp : ((fun r : RefreshTokenRow => r.jti == j) ∘ f)
      = fun r : RefreshTokenRow => r.jti == j := by
    funext r
    simp [Function.comp, hf r]
  rw [hp]

theorem find?_reset_map_pres (rows : List ResetTokenRow) (h : String)
    (f : ResetTokenRow → ResetTokenRow) (hf : ∀ r, (f r).tokenHash = r.tokenHash) :
    get_password_reset_token_by_hash (rows.map f) h
      = (get_password_reset_token_by_hash rows h).map f := by
  unfold get_password_reset_token_by_hash
  rw [List.find?_map]
  have hp : ((fun r : ResetTokenRow => r.tokenHash == h) ∘ f)
      = fun r : ResetTokenRow => r.tokenHash == h := by
    funext r
    simp [Function.comp, hf r]
  rw [hp]

theorem get_after_revoke (rows : List RefreshTokenRow) (j : String)
    (row : RefreshTokenRow)
    (hrow : get_refresh_token_by_jti rows j = some row) :
    get_refresh_token_by_jti (revoke_refresh_token rows j) j
      = some { row with revoked := true } := by
  have hbeq : (row.jti == j) = true :=
    @List.find?_some RefreshTokenRow (fun r => r.jti == j) row rows hrow
  unfold revoke_refresh_token
  rw [find?_refresh_map_pres rows j _ (by
    intro r
    by_cases h : (r.jti == j) = true <;> simp [h])]
  rw [hrow]
  simp only [Option.map_some']
  rw [if_pos hbeq]

theorem get_after_revoke_any (rows : List RefreshTokenRow) (j j2 : String)
    (row : RefreshTokenRow)
    (hrow : get_refresh_token_by_jti rows j = some row)
    (hrev : row.revoked = true) :
    ∃ r2, get_refresh_token_by_jti (revoke_refresh_token rows j2) j = some r2 ∧
      r2.revoked = true := by
  unfold revoke_refresh_token
  rw [find?_refresh_map_pres rows j _ (by
    intro r
    by_cases h : (r.jti == j2) = true <;> simp [h])]
  rw [hrow]
  refine ⟨_, rfl, ?_⟩
  by_cases h : (row.jti == j2) = true <;> simp [h, hrev]

theorem get_after_revoke_all (rows : List RefreshTokenRow) (j uid : String)
    (row : RefreshTokenRow)
    (hrow : get_refresh_token_by_jti rows j = some row)
    (hrev : row.revoked = true) :
    ∃ r2, get_refresh_token_by_jti (revoke_all_refresh_tokens uid rows) j
        = some r2 ∧ r2.revoked = true := by
  unfold revoke_all_refresh_tokens
  rw [find?_refresh_map_pres rows j _ (by
    intro r
    by_cases h : (r.userId == uid) = true <;> simp [h])]
  rw [hrow]
  refine ⟨_, rfl, ?_⟩
  by_cases h : (row.userId == uid) = true <;> simp [h, hrev]

theorem get_after_create (rows : List RefreshTokenRow) (j uid j2 : String)
    (e : PyDatetime) (row : RefreshTokenRow)
    (hrow : get_refresh_token_by_jti rows j = some row) :
    get_refresh_token_by_jti (create_refresh_token rows uid j2 e) j
      = some row := by
  unfold create_refresh_token get_refresh_token_by_jti
  rw [List.find?_append]
  unfold get_refresh_token_by_jti at hrow
  rw [hrow]
  rfl

theorem refresh_ok_shape (st : AuthState) (t : JwtPayload) (sv : Bool)
    (n : Int) (nj : String) (ne : Int) (p : AuthState × String)
    (h : refresh_access_token st t sv n nj ne = .ok p) :
    p.1.users = st.users ∧
      ∃ j2 uid, p.1.refreshTokens
        = create_refresh_token (revoke_refresh_token st.refreshTokens j2) uid
            nj (utcFromTimestamp ne) := by
  unfold refresh_access_token at h
  repeat' split at h
  all_goals try exact Except.noConfusion h
  injection h with h1
  subst h1
  exact ⟨rfl, _, _, rfl⟩

theorem refresh_succeeds (st : AuthState) (uid j : String)
    (row : RefreshTokenRow) (u : UserRow) (exp nowUtc : Int) (newJti : String)
    (newExp : Int)
    (hrow : get_refresh_token_by_jti st.refreshTokens j = some row)
    (hrev : row.revoked = false)
    (hexp : pyExpiredCheck row.expiresAt nowUtc = false)
    (huser : st.users.find? (fun v => v.id == uid) = some u)
    (hact : u.isActive = true)
    (hemb : nowUtc < exp) :
    refresh_access_token st ⟨some uid, some j, exp⟩ true nowUtc newJti newExp
      = .ok (rotated_state st uid j newJti newExp, newJti) := by
  unfold refresh_access_token decode_token rotated_state
  rw [if_pos (by simp [hemb])]
  simp only [hrow, hrev, hexp, huser, hact]
  simp

theorem refresh_fails_revoked (st : AuthState) (uid j : String)
    (row : RefreshTokenRow) (exp nowUtc : Int) (newJti : String) (newExp : Int)
    (hrow : get_refresh_token_by_jti st.refreshTokens j = some row)
    (hrev : row.revoked = true)
    (hemb : nowUtc < exp) :
    refresh_access_token st ⟨some uid, some j, exp⟩ true nowUtc newJti newExp
      = .error .revokedToken := by
  unfold refresh_access_token decode_token
  rw [if_pos (by simp [hemb])]
  simp only [hrow, hrev]
  simp

theorem revoked_row_persists (op : AuthOp) (st : AuthState) (j : String)
    (row : RefreshTokenRow)
    (hrow : get_refresh_token_by_jti st.refreshTokens j = some row)
    (hrev : row.revoked = true) :
    ∃ row2, get_refresh_token_by_jti (apply_auth_op st op).refreshTokens j
        = some row2 ∧ row2.revoked = true := by
  cases op with
  | create uid j2 e =>
    exact ⟨row, get_after_create st.refreshTokens j uid j2 e row hrow, hrev⟩
  | revokeOne j2 => exact get_after_revoke_any st.refreshTokens j j2 row hrow hrev
  | revokeAllFor uid => exact get_after_revoke_all st.refreshTokens j uid row hrow hrev
  | refresh t sv n nj ne =>
    show ∃ row2, get_refresh_token_by_jti
        (match refresh_access_token st t sv n nj ne with
          | .ok p => p.1
          | .error _ => st).refreshTokens j = some row2 ∧ row2.revoked = true
    cases hres : refresh_access_token st t sv n nj ne with
    | error e => exact ⟨row, hrow, hrev⟩
    | ok p =>
      obtain ⟨-, j2, uid, hshape⟩ := refresh_ok_shape st t sv n nj ne p hres
      simp only [hshape]
      obtain ⟨r2, hr2, hr2rev⟩ :=
        get_after_revoke_any st.refreshTokens j j2 row hrow hrev
      exact ⟨r2, get_after_create _ j uid nj (utcFromTimestamp ne) r2 hr2, hr2rev⟩

theorem revoked_row_persists_ops (ops : List AuthOp) (st : AuthState)
    (j : String) (row : RefreshTokenRow)
    (hrow : get_refresh_token_by_jti st.refreshTokens j = some row)
    (hrev : row.revoked = true) :
    ∃ row2, get_refresh_token_by_jti
        (ops.foldl apply_auth_op st).refreshTokens j = some row2 ∧
      row2.revoked = true := by
  induction ops generalizing st row with
  | nil => exact ⟨row, hrow, hrev⟩
  | cons op rest ih =>
    obtain ⟨r2, hr2, hr2rev⟩ := revoked_row_persists op st j row hrow hrev
    exact ih (apply_auth_op st op) r2 hr2 hr2rev

/-- C1: a refresh token persisted with its jti rotates exactly once: with the
signed token valid, the persisted row live and its user active, the first
`refresh_access_token` call succeeds and leaves the row revoked, and every
later call with the same token — after any further sequence of refresh-token
operations — fails with `revokedToken`, even when the token's embedded expiry
has not passed. -/
theorem c1_refresh_token_single_use
    (st : AuthState) (uid j : String) (row : RefreshTokenRow) (u : UserRow)
    (exp nowUtc : Int) (newJti : String) (newExp : Int)
    (hrow : get_refresh_token_by_jti st.refreshTokens j = some row)
    (hrev : row.revoked = false)
    (hexp : pyExpiredCheck row.expiresAt nowUtc = false)
    (huser : st.users.find? (fun v => v.id == uid) = some u)
    (hact : u.isActive = true)
    (hemb : nowUtc < exp) :
    refresh_access_token st ⟨some uid, some j, exp⟩ true nowUtc newJti newExp
        = .ok (rotated_state st uid j newJti newExp, newJti) ∧
    get_refresh_token_by_jti
        (rotated_state st uid j newJti newExp).refreshTokens j
      = some { row with revoked := true } ∧
    ∀ (ops : List AuthOp) (nowUtc2 : Int) (newJti2 : String) (newExp2 : Int),
      nowUtc2 < exp →
      refresh_access_token
          (ops.foldl apply_auth_op (rotated_state st uid j newJti newExp))
          ⟨some uid, some j, exp⟩ true nowUtc2 newJti2 newExp2
        = .error .revokedToken := by
  have hsucc := refresh_succeeds st uid j row u exp nowUtc newJti newExp
    hrow hrev hexp huser hact hemb
  have hget : get_refresh_token_by_jti
      (rotated_state st uid j newJti newExp).refreshTokens j
      = some { row with revoked := true } := by
    unfold rotated_state
    exact get_after_create _ j uid newJti (utcFromTimestamp newExp) _
      (get_after_revoke st.refreshTokens j row hrow)
  refine ⟨hsucc, hget, ?_⟩
  intro ops nowUtc2 newJti2 newExp2 hemb2
  obtain ⟨row2, hrow2, hrev2⟩ := revoked_row_persists_ops ops
    (rotated_state st uid j newJti newExp) j { row with revoked := true }
    hget rfl
  exact refresh_fails_revoked _ uid j row2 exp nowUtc2 newJti2 newExp2
    hrow2 hrev2 hemb2

/-- C1 witness: the rotation theorem applied to a concrete one-user state
with one live refresh token. -/
theorem c1_refresh_token_single_use_witness :
    refresh_access_token c1State ⟨some "u1", some "j1", 100⟩ true 0 "j2" 90
        = .ok (rotated_state c1State "u1" "j1" "j2" 90, "j2") ∧
    get_refresh_token_by_jti
        (rotated_state c1State "u1" "j1" "j2" 90).refreshTokens "j1"
      = some { userId := "u1", jti := "j1", expiresAt := utcFromTimestamp 50,
               revoked := true } ∧
    ∀ (ops : List AuthOp) (nowUtc2 : Int) (newJti2 : String) (newExp2 : Int),
      nowUtc2 < 100 →
      refresh_access_token
          (ops.foldl apply_auth_op (rotated_state c1State "u1" "j1" "j2" 90))
          ⟨some "u1", some "j1", 100⟩ true nowUtc2 newJti2 newExp2
        = .error .revokedToken :=
  c1_refresh_token_single_use c1State "u1" "j1"
    { userId := "u1", jti := "j1", expiresAt := utcFromTimestamp 50,
      revoked := false }
    { id := "u1", isActive := true, passwordHash := "ph" }
    100 0 "j2" 90 (by decide) (by decide) (by decide) (by decide) (by decide)
    (by decide)

theorem get_after_use (rows : List ResetTokenRow) (h : String)
    (row : ResetTokenRow)
    (hrow : get_password_reset_token_by_hash rows h = some row) :
    get_password_reset_token_by_hash (use_password_reset_token rows row.rowId) h
      = some { row with used := true } := by
  unfold use_password_reset_token
  rw [find?_reset_map_pres rows h _ (by
    intro r
    by_cases hx : (r.rowId == row.rowId) = true <;> simp [hx])]
  rw [hrow]
  simp only [Option.map_some']
  rw [if_pos (by simp)]

theorem confirm_fails_used (st : ResetState) (hashFn : String → String)
    (raw : String) (row : ResetTokenRow) (nowUtc : Int) (pw : String)
    (hrow : get_password_reset_token_by_hash st.resetTokens (hashFn raw)
      = some row)
    (hused : row.used = true) :
    confirm_password_reset st hashFn raw nowUtc pw = .error .alreadyUsed := by
  unfold confirm_password_reset
  simp only [hrow, hused]
  simp

theorem confirm_succeeds (st : ResetState) (hashFn : String → String)
    (raw : String) (row : ResetTokenRow) (u : UserRow) (nowUtc : Int)
    (newPwHash : String)
    (hrow : get_password_reset_token_by_hash st.resetTokens (hashFn raw)
      = some row)
    (hused : row.used = false)
    (hexp : pyExpiredCheck row.expiresAt nowUtc = false)
    (huser : st.users.find? (fun v => v.id == row.userId) = some u) :
    confirm_password_reset st hashFn raw nowUtc newPwHash
      = .ok (reset_done_state st u.id row.rowId newPwHash) := by
  unfold confirm_password_reset reset_done_state
  simp only [hrow, hused, hexp, huser]
  simp

/-- C2: a password-reset confirmation hashes the input and looks the record
up by hash, fails `invalidToken` when no record matches, fails `alreadyUsed`
when the used flag is set (checked before expiry, so independent of the
clock), fails `expired` when past expiry, and otherwise updates the
credential and marks the record used — after which any replay fails with
`alreadyUsed`. -/
theorem c2_password_reset_at_most_once
    (st : ResetState) (hashFn : String → String) (raw : String)
    (row : ResetTokenRow) (u : UserRow) (nowUtc : Int) (newPwHash : String)
    (hrow : get_password_reset_token_by_hash st.resetTokens (hashFn raw)
      = some row)
    (hused : row.used = false)
    (hexp : pyExpiredCheck row.expiresAt nowUtc = false)
    (huser : st.users.find? (fun v => v.id == row.userId) = some u) :
    confirm_password_reset st hashFn raw nowUtc newPwHash
        = .ok (reset_done_state st u.id row.rowId newPwHash) ∧
    get_password_reset_token_by_hash
        (reset_done_state st u.id row.rowId newPwHash).resetTokens
        (hashFn raw)
      = some { row with used := true } ∧
    (∀ (nowUtc2 : Int) (pw2 : String),
      confirm_password_reset (reset_done_state st u.id row.rowId newPwHash)
          hashFn raw nowUtc2 pw2 = .error .alreadyUsed) ∧
    (∀ (st2 : ResetState) (row2 : ResetTokenRow) (nowUtc2 : Int) (pw2 : String),
      get_password_reset_token_by_hash st2.resetTokens (hashFn raw)
          = some row2 →
      row2.used = true →
      confirm_password_reset st2 hashFn raw nowUtc2 pw2
        = .error .alreadyUsed) ∧
    (∀ (st2 : ResetState) (nowUtc2 : Int) (pw2 : String),
      get_password_reset_token_by_hash st2.resetTokens (hashFn raw) = none →
      confirm_password_reset st2 hashFn raw nowUtc2 pw2
        = .error .invalidToken) ∧
    (∀ (st2 : ResetState) (row2 : ResetTokenRow) (nowUtc2 : Int) (pw2 : String),
      get_password_reset_token_by_hash st2.resetTokens (hashFn raw)
          = some row2 →
      row2.used = false →
      pyExpiredCheck row2.expiresAt nowUtc2 = true →
      confirm_password_reset st2 hashFn raw nowUtc2 pw2 = .error .expired) := by
  have hget : get_password_reset_token_by_hash
      (reset_done_state st u.id row.rowId newPwHash).resetTokens (hashFn raw)
      = some { row with used := true } := by
    show get_password_reset_token_by_hash
      (use_password_reset_token st.resetTokens row.rowId) (hashFn raw)
      = some { row with used := true }
    exact get_after_use st.resetTokens (hashFn raw) row hrow
  refine ⟨confirm_succeeds st hashFn raw row u nowUtc newPwHash hrow hused
    hexp huser, hget, ?_, ?_, ?_, ?_⟩
  · intro nowUtc2 pw2
    exact confirm_fails_used _ hashFn raw { row with used := true } nowUtc2
      pw2 hget rfl
  · intro st2 row2 nowUtc2 pw2 hrow2 hused2
    exact confirm_fails_used st2 hashFn raw row2 nowUtc2 pw2 hrow2 hused2
  · intro st2 nowUtc2 pw2 hnone
    unfold confirm_password_reset
    simp only [hnone]
  · intro st2 row2 nowUtc2 pw2 hrow2 hused2 hexp2
    unfold confirm_password_reset
    simp only [hrow2, hused2, hexp2]
    simp

/-- C2 witness: the at-most-once theorem applied to a concrete state holding
one live reset token whose hash column matches the demonstration digest of
the raw token. -/
theorem c2_password_reset_at_most_once_witness :
    confirm_password_reset c2State demoHash "tk" 100 "new"
        = .ok (reset_done_state c2State "u1" 1 "new") ∧
    get_password_reset_token_by_hash
        (reset_done_state c2State "u1" 1 "new").resetTokens (demoHash "tk")
      = some { rowId := 1, userId := "u1", tokenHash := "tkh",
               expiresAt := utcFromTimestamp 3600, used := true } ∧
    (∀ (nowUtc2 : Int) (pw2 : String),
      confirm_password_reset (reset_done_state c2State "u1" 1 "new")
          demoHash "tk" nowUtc2 pw2 = .error .alreadyUsed) ∧
    (∀ (st2 : ResetState) (row2 : ResetTokenRow) (nowUtc2 : Int) (pw2 : String),
      get_password_reset_token_by_hash st2.resetTokens (demoHash "tk")
          = some row2 →
      row2.used = true →
      confirm_password_reset st2 demoHash "tk" nowUtc2 pw2
        = .error .alreadyUsed) ∧
    (∀ (st2 : ResetState) (nowUtc2 : Int) (pw2 : String),
      get_password_reset_token_by_hash st2.resetTokens (demoHash "tk") = none →
      confirm_password_reset st2 demoHash "tk" nowUtc2 pw2
        = .error .invalidToken) ∧
    (∀ (st2 : ResetState) (row2 : ResetTokenRow) (nowUtc2 : Int) (pw2 : String),
      get_password_reset_token_by_hash st2.resetTokens (demoHash "tk")
          = some row2 →
      row2.used = false →
      pyExpiredCheck row2.expiresAt nowUtc2 = true →
      confirm_password_reset st2 demoHash "tk" nowUtc2 pw2
        = .error .expired) :=
  c2_password_reset_at_most_once c2State demoHash "tk"
    { rowId := 1, userId := "u1", tokenHash := "tkh",
      expiresAt := utcFromTimestamp 3600, used := false }
    { id := "u1", isActive := true, passwordHash := "old" }
    100 "new" (by decide) (by decide) (by decide) (by decide)

/-- C6: revoking all refresh tokens of a user leaves every row of that user
revoked and leaves rows of every other user exactly as they were (hence also
their count and order), so the table afterwards has zero non-revoked rows for
that user. -/
theorem c6_revoke_all_frame (uid : String) (rows : List RefreshTokenRow) :
    (∀ r ∈ revoke_all_refresh_tokens uid rows,
      r.userId = uid → r.revoked = true) ∧
    (revoke_all_refresh_tokens uid rows).filter (fun r => !(r.userId == uid))
      = rows.filter (fun r => !(r.userId == uid)) ∧
    (revoke_all_refresh_tokens uid rows).length = rows.length := by
  refine ⟨?_, ?_, ?_⟩
  · intro r hr hrid
    unfold revoke_all_refresh_tokens at hr
    obtain ⟨r0, hr0mem, hr0eq⟩ := List.mem_map.mp hr
    by_cases h : (r0.userId == uid) = true
    · rw [if_pos h] at hr0eq
      rw [show r = { r0 with revoked := true } from hr0eq.symm]
    · rw [if_neg h] at hr0eq
      subst hr0eq
      exact absurd (by simp [hrid]) h
  · unfold revoke_all_refresh_tokens
    induction rows with
    | nil => rfl
    | cons r0 rest ih =>
      by_cases h : r0.userId = uid
      · simp only [List.map_cons, List.filter_cons]
        simp [h]
        simpa using ih
      · simp only [List.map_cons, List.filter_cons]
        simp [h]
        simpa using ih
  · unfold revoke_all_refresh_tokens
    exact List.length_map rows _

/-- C6 witness: the frame theorem applied to a two-user table, read off at
the concrete rows. -/
theorem c6_revoke_all_frame_witness :
    ((revoke_all_refresh_tokens "u1"
        [{ userId := "u1", jti := "j1", expiresAt := utcFromTimestamp 5,
           revoked := false },
         { userId := "u2", jti := "j2", expiresAt := utcFromTimestamp 6,
           revoked := false }]).filter (fun r => !(r.userId == "u1"))
      = [{ userId := "u2", jti := "j2", expiresAt := utcFromTimestamp 6,
           revoked := false }]) ∧
    ({ userId := "u1", jti := "j1", expiresAt := utcFromTimestamp 5,
       revoked := true } : RefreshTokenRow).revoked = true := by
  constructor
  · have h := (c6_revoke_all_frame "u1"
      [{ userId := "u1", jti := "j1", expiresAt := utcFromTimestamp 5,
         revoked := false },
       { userId := "u2", jti := "j2", expiresAt := utcFromTimestamp 6,
         revoked := false }]).2.1
    rw [h]
    decide
  · rfl

/-- C5: when the backing store is unreachable the rate limiter fails open —
for every key state and every limit / window the call returns `True`, leaves
the store untouched, and logs the failure. -/
theorem c5_rate_limiter_fails_open (st : RLState) (nowUtc limit window : Int) :
    is_allowed_total false st nowUtc limit window
      = (true, st, ["Error checking rate limit"]) := rfl

/-- C10: the `/auth/logout-all` endpoint only returns the success message;
the database state — in particular the revoked flag of every refresh-token
row — passes through unchanged, because the handler never calls
`AuthService.logout_all` / `revoke_all_refresh_tokens`. -/
theorem c10_logout_all_endpoint_no_revocation (st : AuthState) :
    logout_all_endpoint st
        = (st, "Successfully logged out from all devices") ∧
    (logout_all_endpoint st).1.refreshTokens = st.refreshTokens :=
  ⟨rfl, rfl⟩

/-- C8: issuing a password-reset token persists a row whose columns are
exactly the row id, the user id, the DIGEST of the raw token, a one-hour
aware expiry and a cleared used flag — the raw token itself is only returned
to the caller — and, as long as no existing row already carries that digest,
looking up by the digest of the raw token retrieves exactly the new row. -/
theorem c8_reset_token_stores_only_hash
    (rows : List ResetTokenRow) (hashFn : String → String) (uid raw : String)
    (nowUtc : Int) (newId : Nat)
    (hfresh : ∀ r ∈ rows, r.tokenHash ≠ hashFn raw) :
    (create_password_reset_token rows hashFn uid raw nowUtc newId).2.1
        = { rowId := newId, userId := uid, tokenHash := hashFn raw,
            expiresAt := { wall := nowUtc + 3600, tz := some 0 },
            used := false } ∧
    (create_password_reset_token rows hashFn uid raw nowUtc newId).2.2
        = raw ∧
    get_password_reset_token_by_hash
        (create_password_reset_token rows hashFn uid raw nowUtc newId).1
        (hashFn raw)
      = some (create_password_reset_token rows hashFn uid raw nowUtc newId).2.1
    := by
  refine ⟨rfl, rfl, ?_⟩
  unfold create_password_reset_token get_password_reset_token_by_hash
  rw [List.find?_append]
  have hnone : List.find? (fun r : ResetTokenRow => r.tokenHash == hashFn raw)
      rows = none := by
    rw [List.find?_eq_none]
    intro r hr
    simp only [Bool.not_eq_true]
    exact beq_eq_false_iff_ne.mpr (hfresh r hr)
  rw [hnone]
  simp

/-- C8 witness: the hash-only storage theorem applied to an empty table with
the demonstration digest. -/
theorem c8_reset_token_stores_only_hash_witness :
    (create_password_reset_token [] demoHash "u1" "tk" 0 7).2.1
        = { rowId := 7, userId := "u1", tokenHash := demoHash "tk",
            expiresAt := { wall := 3600, tz := some 0 }, used := false } ∧
    (create_password_reset_token [] demoHash "u1" "tk" 0 7).2.2 = "tk" ∧
    get_password_reset_token_by_hash
        (create_password_reset_token [] demoHash "u1" "tk" 0 7).1
        (demoHash "tk")
      = some (create_password_reset_token [] demoHash "u1" "tk" 0 7).2.1 :=
  c8_reset_token_stores_only_hash [] demoHash "u1" "tk" 0 7 (by simp)

/-- C9: publishing to a channel with no subscriber completes normally with
zero receivers and nothing logged; the listen loop processes a message
sequence compositionally, so the messages after any given message are
dispatched exactly as they would be on their own — and a message whose
handler raises produces a logged `handlerError` event instead of ending the
loop. -/
theorem c9_pubsub_listener_survives_handler_errors :
    (∀ (subs : List String) (uid : String),
      ("notifications:user:" ++ uid) ∉ subs →
      publish_notification subs true uid
        = { receivers := 0, errorLogged := false }) ∧
    (∀ (listeners : List (String × (String → HandlerResult)))
        (pre post : List PubSubMessage) (m : PubSubMessage),
      listen_for_notifications listeners (pre ++ m :: post)
        = listen_for_notifications listeners pre
            ++ listen_step listeners m
            ++ listen_for_notifications listeners post) ∧
    (∀ (listeners : List (String × (String → HandlerResult)))
        (c d e : String) (h : String → HandlerResult),
      lookupHandler listeners c = some h →
      h d = .failed e →
      listen_step listeners { msgType := "message", channel := c, data := d }
        = [.handlerError c e]) := by
  refine ⟨?_, ?_, ?_⟩
  · intro subs uid hns
    unfold publish_notification redis_publish
    simp only [if_pos rfl]
    have hnil : subs.filter
        (fun c => c == ("notifications:user:" ++ uid)) = [] := by
      rw [List.filter_eq_nil_iff]
      intro c hc
      simp only [Bool.not_eq_true]
      exact beq_eq_false_iff_ne.mpr (fun he => hns (he ▸ hc))
    rw [hnil]
    rfl
  · intro listeners pre post m
    induction pre with
    | nil => rfl
    | cons m0 rest ih =>
      show listen_step listeners m0
          ++ listen_for_notifications listeners (rest ++ m :: post) = _
      rw [ih]
      simp [List.append_assoc, listen_for_notifications]
  · intro listeners c d e h hl hf
    unfold listen_step
    simp only [hl, hf]
    simp

/-- C9 witness: a two-message run where the first handler call raises and
the second is still dispatched, plus a publish to a channel nobody
subscribed to. -/
theorem c9_pubsub_listener_survives_handler_errors_witness :
    publish_notification ["notifications:user:u2"] true "u1"
        = { receivers := 0, errorLogged := false } ∧
    listen_for_notifications
        [("c1", fun d => if d == "bad" then .failed "boom" else .ok)]
        ([{ msgType := "message", channel := "c1", data := "bad" }]
          ++ { msgType := "message", channel := "c1", data := "good" } :: [])
      = listen_for_notifications
          [("c1", fun d => if d == "bad" then .failed "boom" else .ok)]
          [{ msgType := "message", channel := "c1", data := "bad" }]
          ++ listen_step
              [("c1", fun d => if d == "bad" then .failed "boom" else .ok)]
              { msgType := "message", channel := "c1", data := "good" }
          ++ [] ∧
    listen_step [("c1", fun d => if d == "bad" then .failed "boom" else .ok)]
        { msgType := "message", channel := "c1", data := "bad" }
      = [.handlerError "c1" "boom"] := by
  refine ⟨?_, ?_, ?_⟩
  · exact c9_pubsub_listener_survives_handler_errors.1
      ["notifications:user:u2"] "u1" (by decide)
  · exact c9_pubsub_listener_survives_handler_errors.2.1
      [("c1", fun d => if d == "bad" then .failed "boom" else .ok)]
      [{ msgType := "message", channel := "c1", data := "bad" }] []
      { msgType := "message", channel := "c1", data := "good" }
  · exact c9_pubsub_listener_survives_handler_errors.2.2
      [("c1", fun d => if d == "bad" then .failed "boom" else .ok)]
      "c1" "bad" "boom" (fun d => if d == "bad" then .failed "boom" else .ok)
      rfl rfl

theorem mem_zadd_self (l : List Int) (s : Int) : s ∈ zadd l s := by
  unfold zadd
  by_cases h : l.contains s = true
  · rw [if_pos h]
    simpa using h
  · rw [if_neg h]
    exact List.mem_append.mpr (Or.inr (List.mem_singleton.mpr rfl))

theorem mem_zadd (l : List Int) (s x : Int) (hx : x ∈ zadd l s) :
    x ∈ l ∨ x = s := by
  unfold zadd at hx
  by_cases h : l.contains s = true
  · rw [if_pos h] at hx
    exact Or.inl hx
  · rw [if_neg h] at hx
    rcases List.mem_append.mp hx with h1 | h1
    · exact Or.inl h1
    · exact Or.inr (List.mem_singleton.mp h1)

theorem zadd_ne_nil (l : List Int) (s : Int) : zadd l s ≠ [] := by
  intro hcontra
  exact absurd (hcontra ▸ mem_zadd_self l s) (List.not_mem_nil s)

/-- C3: one rate-limit check purges the scores older than `now - window`
from the live key, allows exactly when the remaining count is below the
limit, records `now` on the key and pushes the key expiry out to `window`;
a rejected decorated call raises `RateLimited` with the retry hint; and in
the concrete scenario of the spec — limit 3, window 60s — three calls inside
the window are allowed, the fourth is rejected, and a call after the window
has elapsed is allowed again. -/
theorem c3_sliding_window_counter :
    (∀ (st : RLState) (nowUtc limit window : Int),
      (is_allowed st nowUtc limit window).allowed = true ↔
        ((zremrangebyscore (liveEntries st nowUtc) 0
            (nowUtc - window)).length : Int) < limit) ∧
    (∀ (st : RLState) (nowUtc limit window : Int),
      (is_allowed st nowUtc limit window).state.entries
          = zadd (zremrangebyscore (liveEntries st nowUtc) 0
              (nowUtc - window)) nowUtc ∧
      nowUtc ∈ (is_allowed st nowUtc limit window).state.entries ∧
      (is_allowed st nowUtc limit window).state.deadline
        = some (nowUtc + window)) ∧
    (∀ (st : RLState) (nowUtc limit window : Int),
      (is_allowed st nowUtc limit window).allowed = false →
      rate_limit_call st nowUtc limit window
        = .error (.rateLimited
            (get_retry_after (is_allowed st nowUtc limit window).state
              nowUtc window))) ∧
    (run_is_allowed { entries := [], deadline := none } 3 60
        [0, 1, 2, 3, 64]).1
      = [true, true, true, false, true] := by
  refine ⟨?_, ?_, ?_, by decide⟩
  · intro st nowUtc limit window
    unfold is_allowed
    simp
  · intro st nowUtc limit window
    refine ⟨rfl, ?_, rfl⟩
    exact mem_zadd_self _ nowUtc
  · intro st nowUtc limit window hrej
    unfold rate_limit_call
    rw [if_neg (by simp [hrej])]

/-- C3 witness: the window semantics instantiated at a key holding one
fresh score with limit 1, where the next check is rejected and the decorated
call raises `RateLimited`. -/
theorem c3_sliding_window_counter_witness :
    ((is_allowed { entries := [4], deadline := some 64 } 5 1 60).allowed = true
      ↔ ((zremrangebyscore
            (liveEntries { entries := [4], deadline := some 64 } 5) 0
            (5 - 60)).length : Int) < 1) ∧
    (5 : Int) ∈ (is_allowed { entries := [4], deadline := some 64 } 5 1
        60).state.entries ∧
    rate_limit_call { entries := [4], deadline := some 64 } 5 1 60
      = .error (.rateLimited
          (get_retry_after
            (is_allowed { entries := [4], deadline := some 64 } 5 1 60).state
            5 60)) := by
  refine ⟨?_, ?_, ?_⟩
  · exact c3_sliding_window_counter.1 { entries := [4], deadline := some 64 }
      5 1 60
  · exact (c3_sliding_window_counter.2.1
      { entries := [4], deadline := some 64 } 5 1 60).2.1
  · exact c3_sliding_window_counter.2.2.1
      { entries := [4], deadline := some 64 } 5 1 60 (by decide)

theorem c4_aux (all : List Int) (window : Int)
    (hpair : ∀ a ∈ all, ∀ b ∈ all, a - b < window) :
    ∀ (ts : List Int) (st : RLState),
      (∀ t ∈ ts, t ∈ all) →
      st.entries ≠ [] →
      (∀ s ∈ st.entries, s ∈ all) →
      (∀ d, st.deadline = some d → ∃ u ∈ all, d = u + window) →
      (run_is_allowed st 1 window ts).1 = List.replicate ts.length false := by
  intro ts
  induction ts with
  | nil =>
    intro st _ _ _ _
    rfl
  | cons t rest ih =>
    intro st hts hne hmem hdl
    have ht : t ∈ all := hts t (List.mem_cons_self t rest)
    have hlive : liveEntries st t = st.entries := by
      unfold liveEntries
      cases hd : st.deadline with
      | none => rfl
      | some d =>
        obtain ⟨u, hu, rfl⟩ := hdl d hd
        have hw := hpair t ht u hu
        show (if (u + window) < t then ([] : List Int) else st.entries)
          = st.entries
        rw [if_neg (by omega)]
    have hpurge : zremrangebyscore st.entries 0 (t - window) = st.entries := by
      unfold zremrangebyscore
      rw [List.filter_eq_self]
      intro s hs
      have hw := hpair t ht s (hmem s hs)
      have h2 : ¬(s ≤ t - window) := by omega
      simp [h2]
    have hlen : 0 < st.entries.length := List.length_pos.mpr hne
    have hallow : (is_allowed st t 1 window).allowed = false := by
      unfold is_allowed
      simp only [hlive, hpurge]
      exact decide_eq_false (by omega)
    have hst1 : (is_allowed st t 1 window).state
        = { entries := zadd st.entries t, deadline := some (t + window) } := by
      unfold is_allowed
      simp only [hlive, hpurge]
    have hrec : (run_is_allowed st 1 window (t :: rest)).1
        = (is_allowed st t 1 window).allowed
            :: (run_is_allowed (is_allowed st t 1 window).state 1 window
                rest).1 := rfl
    rw [hrec, hallow, List.length_cons, List.replicate_succ]
    congr 1
    rw [hst1]
    refine ih { entries := zadd st.entries t, deadline := some (t + window) }
      (fun x hx => hts x (List.mem_cons_of_mem t hx)) (zadd_ne_nil _ t)
      ?_ ?_
    · intro s hs
      rcases mem_zadd st.entries t s hs with h1 | h1
      · exact hmem s h1
      · exact h1 ▸ ht
    · intro d hd
      refine ⟨t, ht, ?_⟩
      injection hd with h1
      exact h1.symm

/-- C4: each `is_allowed` check runs as one atomic MULTI/EXEC pipeline, so
concurrent checks on a key serialize; for any serialization of checks whose
instants all lie within one window of each other, starting from an empty key
with limit 1, the first executed check is admitted and every other one is
rejected — exactly one of N concurrent requests passes. -/
theorem c4_concurrent_checks_admit_one (t0 : Int) (ts : List Int)
    (window : Int)
    (hpair : ∀ a ∈ t0 :: ts, ∀ b ∈ t0 :: ts, a - b < window) :
    (run_is_allowed { entries := [], deadline := none } 1 window
        (t0 :: ts)).1
      = true :: List.replicate ts.length false ∧
    ((run_is_allowed { entries := [], deadline := none } 1 window
        (t0 :: ts)).1).count true = 1 := by
  have hfirst : (is_allowed { entries := [], deadline := none } t0 1
      window).allowed = true := by
    unfold is_allowed liveEntries zremrangebyscore
    simp
  have hstate : (is_allowed { entries := [], deadline := none } t0 1
      window).state
      = { entries := [t0], deadline := some (t0 + window) } := by
    unfold is_allowed liveEntries zremrangebyscore zadd
    simp
  have hrec : (run_is_allowed { entries := [], deadline := none } 1 window
      (t0 :: ts)).1
      = (is_allowed { entries := [], deadline := none } t0 1 window).allowed
          :: (run_is_allowed
              (is_allowed { entries := [], deadline := none } t0 1
                window).state 1 window ts).1 := rfl
  have hmain : (run_is_allowed { entries := [], deadline := none } 1 window
      (t0 :: ts)).1 = true :: List.replicate ts.length false := by
    rw [hrec, hfirst, hstate]
    congr 1
    refine c4_aux (t0 :: ts) window hpair ts
      { entries := [t0], deadline := some (t0 + window) }
      (fun x hx => List.mem_cons_of_mem t0 hx) (by simp) ?_ ?_
    · intro s hs
      rw [List.mem_singleton.mp hs]
      exact List.mem_cons_self t0 ts
    · intro d hd
      refine ⟨t0, List.mem_cons_self t0 ts, ?_⟩
      injection hd with h1
      exact h1.symm
  refine ⟨hmain, ?_⟩
  rw [hmain]
  simp [List.count_cons, List.count_replicate]

/-- C4 witness: three checks at instants 0, 1, 2 inside a 60-second window
against an empty key with limit 1 — one admitted, two rejected. -/
theorem c4_concurrent_checks_admit_one_witness :
    (run_is_allowed { entries := [], deadline := none } 1 60 [0, 1, 2]).1
        = true :: List.replicate 2 false ∧
    ((run_is_allowed { entries := [], deadline := none } 1 60
        [0, 1, 2]).1).count true = 1 :=
  c4_concurrent_checks_admit_one 0 [1, 2] 60 (by decide)

/-- C7: evaluation of the expiry check at a refresh-token row written by the
`/auth/register` handler on a host one hour west of UTC (utc offset -3600).
The row's expiry instant is 10000 and the current instant is 7000, so the
expiry has NOT passed; yet the check branches on the missing tzinfo and
compares the naive LOCAL wall reading 6400 with the naive UTC wall reading
7000, so `refresh_access_token` fails with `expiredToken`.  The two creation
sites thus feed the comparison from two different clocks, refuting the claim
that the check fails exactly when the expiry instant is before the current
UTC-aware time, independent of tzinfo. -/
theorem c7_timezone_inconsistency :
    pyExpiredCheck (localNaiveFromTimestamp 10000 (-3600)) 7000 = true ∧
    ¬((10000 : Int) < 7000) ∧
    refresh_access_token c7State ⟨some "u1", some "j1", 10000⟩ true 7000
        "j2" 12000
      = .error .expiredToken := ⟨by decide, by decide, by rfl⟩
